import Mathlib

/-!
Shallow embedding of the VoltEdge charging-network core
(src/models/charger.py, station.py, session.py, user.py, maintenance.py and
src/services/service.py) in Lean 4, together with theorems settling the
claims about it.

Modelling conventions:
* Python object references are modelled as a heap: the process-wide
  `ChargingService` record holds association lists keyed by the natural
  identifiers (mirroring the Python dicts, which preserve insertion order and
  replace in place on key reassignment), and a `Station` or `Session` refers
  to its chargers by id, looked up through the global charger index.
* Python `datetime` timestamps are modelled as natural-number seconds; the
  Python expression `(b - a).seconds` on a `timedelta` normalises to the
  value `(b - a) mod 86400` (the day component is discarded), which is
  embedded faithfully as `tdSeconds`.
* Monetary `float` amounts are modelled as rationals; the statuses, roles and
  other Python strings are kept verbatim as Lean strings.
* `uuid4()` fresh-id generation and the external password hash are
  nondeterministic or external, so they enter the embedded operations as
  explicit parameters.
-/

/-- Association-list lookup, mirroring Python `d.get(k)`: first pair whose key
matches, scanning in insertion order. -/
def alookup {α β : Type} [BEq α] (l : List (α × β)) (k : α) : Option β :=
  (l.find? (fun p => p.1 == k)).map Prod.snd

/-- Association-list assignment, mirroring Python `d[k] = v`: replaces the
value in place when the key is present, appends otherwise. -/
def ainsert {α β : Type} [BEq α] (l : List (α × β)) (k : α) (v : β) : List (α × β) :=
  if (l.find? (fun p => p.1 == k)).isSome then
    l.map (fun p => if p.1 == k then (k, v) else p)
  else
    l ++ [(k, v)]

/-- Association-list deletion, mirroring Python `del d[k]`. -/
def aerase {α β : Type} [BEq α] (l : List (α × β)) (k : α) : List (α × β) :=
  l.filter (fun p => !(p.1 == k))

/-- `models/charger.py`: a charging point. The source comment documents the
statuses as `disponible / ocupado / mantenimiento`, while the constructor
default is the English string `"available"`; the embedding keeps the strings
exactly as the source writes them. -/
structure Charger where
  id : Int
  type : String
  status : String
  deriving DecidableEq, Repr

/-- `Charger.start_charge`: transitions `"disponible" -> "ocupado"`; on any
other status (including the constructor default `"available"`) it only logs
and leaves the status unchanged. -/
def Charger.start_charge (c : Charger) : Charger :=
  if c.status = "disponible" then { c with status := "ocupado" } else c

/-- `Charger.stop_charge`: transitions `"ocupado" -> "disponible"`; on any
other status it only logs and leaves the status unchanged. -/
def Charger.stop_charge (c : Charger) : Charger :=
  if c.status = "ocupado" then { c with status := "disponible" } else c

/-- `models/session.py`: one charging event. The Python object holds
references to the user and the charger; the embedding records their
identifiers. Timestamps are seconds. -/
structure Session where
  user_id : Nat
  charger_id : Int
  start_time : Nat
  end_time : Option Nat
  deriving DecidableEq, Repr

/-- The value of the Python expression `(b - a).seconds` for timestamps `a`
and `b` in seconds: `timedelta` normalisation discards whole days, leaving the
elapsed seconds modulo 86400 (non-negative even when `b < a`). -/
def tdSeconds (a b : Nat) : Nat :=
  (((b : Int) - (a : Int)) % 86400).toNat

/-- `Session.end`: stores the end timestamp (unconditionally overwriting). -/
def Session.end_ (s : Session) (now : Nat) : Session :=
  { s with end_time := some now }

/-- `Session.get_duration`: `(end_time - start_time).seconds // 60` when the
session is closed, `(now - start_time).seconds // 60` while it is open. -/
def Session.get_duration (s : Session) (now : Nat) : Nat :=
  match s.end_time with
  | some e => tdSeconds s.start_time e / 60
  | none => tdSeconds s.start_time now / 60

/-- `models/user.py`: a user with balance and at most one active session. -/
structure User where
  id : Nat
  name : String
  email : String
  password_hash : String
  user_type : String
  active_session : Option Session
  saldo : ℚ
  sessions_history : List Session
  deriving DecidableEq, Repr

/-- `User.get_tarifa`: per-kWh price from the role alone. -/
def User.get_tarifa (u : User) : ℚ :=
  if u.user_type = "empresa" then 0.25 else 0.30

/-- `User.recargar_saldo`: rejects non-positive amounts, otherwise adds. The
Python boolean result is returned together with the updated user. -/
def User.recargar_saldo (u : User) (cantidad : ℚ) : Bool × User :=
  if cantidad ≤ 0 then (false, u)
  else (true, { u with saldo := u.saldo + cantidad })

/-- `User.tiene_saldo_suficiente`: `saldo >= cantidad`. -/
def User.tiene_saldo_suficiente (u : User) (cantidad : ℚ) : Bool :=
  cantidad ≤ u.saldo

/-- `User.descontar_saldo`: debits only when the balance suffices. -/
def User.descontar_saldo (u : User) (cantidad : ℚ) : Bool × User :=
  if u.tiene_saldo_suficiente cantidad then
    (true, { u with saldo := u.saldo - cantidad })
  else (false, u)

/-- `User.start_session`: when the charger status is `"disponible"` or
`"available"`, calls `start_charge`, installs a fresh session as
`active_session` (overwriting any existing one, with no guard) and returns
it; otherwise returns `None`. The mutated user and charger are returned
alongside the Python return value. -/
def User.start_session (u : User) (c : Charger) (now : Nat) :
    User × Charger × Option Session :=
  if c.status = "disponible" ∨ c.status = "available" then
    let c' := c.start_charge
    let s : Session := ⟨u.id, c.id, now, none⟩
    ({ u with active_session := some s }, c', some s)
  else
    (u, c, none)

/-- `User.end_session`: when a session is active, closes it, bills
`duration * 0.5 kWh` at the role tariff with `descontar_saldo` (a shortfall
is only logged), appends the closed session to the history, calls
`stop_charge` on the session charger, and clears `active_session`; with no
active session it is a logged no-op. `c` is the charger object the active
session references. -/
def User.end_session (u : User) (c : Charger) (now : Nat) : User × Charger :=
  match u.active_session with
  | none => (u, c)
  | some s =>
    let s' := s.end_ now
    let duracion_minutos := s'.get_duration now
    let kwh_consumidos : ℚ := (duracion_minutos : ℚ) * 0.5
    let tarifa := u.get_tarifa
    let coste := kwh_consumidos * tarifa
    let u1 := (u.descontar_saldo coste).2
    let u2 := { u1 with
      sessions_history := u1.sessions_history ++ [s'],
      active_session := none }
    (u2, c.stop_charge)

/-- `models/station.py`: a station owning an ordered sequence of chargers.
The Python list holds charger objects; the embedding stores their ids and
reads the shared charger records through the service-wide index. -/
structure Station where
  id : Int
  name : String
  location : String
  chargers : List Int
  deriving DecidableEq, Repr

/-- `Station.add_charger`: appends to the owned sequence. -/
def Station.add_charger (st : Station) (charger_id : Int) : Station :=
  { st with chargers := st.chargers ++ [charger_id] }

/-- `Station.get_available_chargers`: the station chargers whose status is
(the English string) `"available"`, in insertion order. `heap` is the global
charger index through which the shared objects are read. -/
def Station.get_available_chargers (st : Station) (heap : List (Int × Charger)) :
    List Charger :=
  (st.chargers.filterMap (fun cid => alookup heap cid)).filter
    (fun c => c.status == "available")

/-- `models/maintenance.py`: a maintenance record (base-class fields; the
variant payloads do not matter to the claims). The date is kept as an opaque
timestamp. -/
structure Maintenance where
  id_mantenimiento : Int
  fecha : Int
  tecnico : String
  tipo : String
  estado : String
  estacion_id : Option Int
  notas : String
  deriving DecidableEq, Repr

/-- `services/service.py`: the process-wide registry. Each Python dict is an
insertion-ordered association list on the natural key. -/
structure ChargingService where
  stations : List (Int × Station)
  chargers : List (Int × Charger)
  users : List (Nat × User)
  sessions : List (Nat × Session)
  maintenances : List (Int × Maintenance)
  deriving DecidableEq, Repr

/-- `ChargingService.get_user_by_email`: linear scan over the users in
insertion order, first email match wins. -/
def ChargingService.get_user_by_email (svc : ChargingService) (email : String) :
    Option User :=
  (svc.users.map Prod.snd).find? (fun u => u.email == email)

/-- `ChargingService.get_user_by_id`: `self.users.get(user_id)`. -/
def ChargingService.get_user_by_id (svc : ChargingService) (user_id : Nat) :
    Option User :=
  alookup svc.users user_id

/-- `ChargingService.register_user`: raises `ValueError` (embedded as
`Except.error`, distinguishable from the `Option.none` sentinel the lookup
operations use) when the email is already registered; otherwise hashes the
password with the external collaborator `hashFn`, builds the user with the
fresh id `newId` drawn by `uuid4`, and stores it. The registry state after
the call is returned alongside the Python result. -/
def ChargingService.register_user (svc : ChargingService)
    (hashFn : String → String) (newId : Nat)
    (name email password user_type : String) (saldo_inicial : ℚ) :
    Except String User × ChargingService :=
  match svc.get_user_by_email email with
  | some _ => (Except.error ("El email " ++ email ++ " ya esta registrado."), svc)
  | none =>
    let user : User :=
      ⟨newId, name, email, hashFn password, user_type, none, saldo_inicial, []⟩
    (Except.ok user, { svc with users := ainsert svc.users newId user })

/-- `ChargingService.get_station`. -/
def ChargingService.get_station (svc : ChargingService) (station_id : Int) :
    Option Station :=
  alookup svc.stations station_id

/-- `ChargingService.create_station`. -/
def ChargingService.create_station (svc : ChargingService)
    (id : Int) (name location : String) : Station × ChargingService :=
  let station : Station := ⟨id, name, location, []⟩
  (station, { svc with stations := ainsert svc.stations id station })

/-- `ChargingService.delete_station`: removes only the station index entry. -/
def ChargingService.delete_station (svc : ChargingService) (station_id : Int) :
    Bool × ChargingService :=
  if (alookup svc.stations station_id).isSome then
    (true, { svc with stations := aerase svc.stations station_id })
  else
    (false, svc)

/-- `ChargingService.add_charger_to_station`: fails when the station is
missing; otherwise creates the charger with the constructor default status
`"available"`, appends it to the station and records it in the global
charger index. -/
def ChargingService.add_charger_to_station (svc : ChargingService)
    (station_id charger_id : Int) (charger_type : String) :
    Option Charger × ChargingService :=
  match svc.get_station station_id with
  | none => (none, svc)
  | some station =>
    let charger : Charger := ⟨charger_id, charger_type, "available"⟩
    let station' := station.add_charger charger_id
    (some charger,
      { svc with
        stations := ainsert svc.stations station_id station',
        chargers := ainsert svc.chargers charger_id charger })

/-- `ChargingService.get_charger`: `self.chargers.get(charger_id)`. -/
def ChargingService.get_charger (svc : ChargingService) (charger_id : Int) :
    Option Charger :=
  alookup svc.chargers charger_id

/-- `ChargingService.start_charging`: resolves user and station, takes the
first available charger of the station, delegates to `User.start_session`,
and when a session came back records it in the active-session index keyed by
the session user id. The write-backs to the user and charger indices model
the in-place mutation of the shared Python objects. -/
def ChargingService.start_charging (svc : ChargingService)
    (user_id : Nat) (station_id : Int) (now : Nat) :
    Option Session × ChargingService :=
  match svc.get_user_by_id user_id with
  | none => (none, svc)
  | some user =>
    match svc.get_station station_id with
    | none => (none, svc)
    | some station =>
      match station.get_available_chargers svc.chargers with
      | [] => (none, svc)
      | charger :: _ =>
        let r := user.start_session charger now
        let svc' := { svc with
          users := ainsert svc.users user_id r.1,
          chargers := ainsert svc.chargers charger.id r.2.1 }
        match r.2.2 with
        | some session =>
          (some session,
            { svc' with sessions := ainsert svc'.sessions session.user_id session })
        | none => (none, svc')

/-- `ChargingService.end_charging`: resolves the user, delegates to
`User.end_session` (the charger object the active session references is read
from the global index and written back mutated), then removes the
active-session index entry for the user unconditionally. -/
def ChargingService.end_charging (svc : ChargingService) (user_id : Nat)
    (now : Nat) : Bool × ChargingService :=
  match svc.get_user_by_id user_id with
  | none => (false, svc)
  | some user =>
    let svc1 :=
      match user.active_session with
      | none => { svc with users := ainsert svc.users user_id user }
      | some s =>
        match alookup svc.chargers s.charger_id with
        | none => { svc with users := ainsert svc.users user_id user }
        | some charger =>
          let r := user.end_session charger now
          { svc with
            users := ainsert svc.users user_id r.1,
            chargers := ainsert svc.chargers s.charger_id r.2 }
    (true, { svc1 with sessions := aerase svc1.sessions user_id })

/-- Python truthiness of the `Optional[int]` filter argument of
`listar_mantenimientos`: `None` and `0` are both falsy. -/
def pyTruthy (x : Option Int) : Bool :=
  match x with
  | none => false
  | some n => n != 0

/-- `ChargingService.listar_mantenimientos`: when the `station_id` argument
is truthy, keeps the maintenances whose `estacion_id` equals it; when it is
`None` — or `0`, which Python treats the same under `if station_id:` —
returns every maintenance. -/
def ChargingService.listar_mantenimientos (svc : ChargingService)
    (station_id : Option Int) : List Maintenance :=
  if pyTruthy station_id then
    (svc.maintenances.map Prod.snd).filter (fun m => m.estacion_id == station_id)
  else
    svc.maintenances.map Prod.snd

/-!
Concrete registry states used by the counterexample and witness theorems.
They are exactly the states produced by `create_station`,
`add_charger_to_station` and `register_user`: a fresh charger carries the
constructor default status `"available"`.
-/

/-- A registered individual user with balance 100 and no active session. -/
def anaUser : User := ⟨1, "Ana", "ana@volt.com", "h1", "individual", none, 100, []⟩

/-- A freshly added charger: constructor default status `"available"`. -/
def charger101 : Charger := ⟨101, "fast", "available"⟩

/-- A station holding exactly the charger 101. -/
def station1 : Station := ⟨1, "Central", "Vigo", [101]⟩

/-- Registry holding Ana, station 1 and charger 101. -/
def svcC1 : ChargingService :=
  ⟨[(1, station1)], [(101, charger101)], [(1, anaUser)], [], []⟩

/-- Ana while she already holds an open session on charger 101. -/
def userWithSession : User :=
  ⟨1, "Ana", "ana@volt.com", "h1", "individual", some ⟨1, 101, 0, none⟩, 100, []⟩

/-- Registry in which Ana already holds an open session on charger 101,
recorded in the active-session index. -/
def svcC2 : ChargingService :=
  ⟨[(1, station1)], [(101, charger101)], [(1, userWithSession)],
   [(1, ⟨1, 101, 0, none⟩)], []⟩

/-- Ana holding an open session that started at time 0 on charger 101. -/
def userC4 : User :=
  ⟨1, "Ana", "ana@volt.com", "h1", "individual", some ⟨1, 101, 0, none⟩, 100, []⟩

/-!
Helper lemmas shared by the claim theorems.
-/

/-- `get_user_by_email` misses exactly when no stored record carries the
email. -/
lemma get_user_by_email_eq_none_iff (svc : ChargingService) (email : String) :
    svc.get_user_by_email email = none ↔ ∀ p ∈ svc.users, p.2.email ≠ email := by
  simp [ChargingService.get_user_by_email, List.find?_eq_none]

/-- Assigning a fresh key appends the pair at the end. -/
lemma ainsert_of_fresh {α β : Type} [BEq α] (l : List (α × β)) (k : α) (v : β)
    (h : alookup l k = none) : ainsert l k v = l ++ [(k, v)] := by
  unfold alookup at h
  rw [Option.map_eq_none'] at h
  simp [ainsert, h]

/-- `descontar_saldo` never drives the balance below zero. -/
lemma descontar_saldo_nonneg (u : User) (c : ℚ) (h : 0 ≤ u.saldo) :
    0 ≤ (u.descontar_saldo c).2.saldo := by
  by_cases hc : c ≤ u.saldo
  · simp [User.descontar_saldo, User.tiene_saldo_suficiente, hc]
  · simpa [User.descontar_saldo, User.tiene_saldo_suficiente, hc] using h

/-- `recargar_saldo` never drives the balance below zero. -/
lemma recargar_saldo_nonneg (u : User) (c : ℚ) (h : 0 ≤ u.saldo) :
    0 ≤ (u.recargar_saldo c).2.saldo := by
  by_cases hc : c ≤ 0
  · simpa [User.recargar_saldo, hc] using h
  · simp [User.recargar_saldo, hc]
    linarith [not_le.mp hc]

/-- The balance-touching operations of the model: a recharge, a direct
debit, and the billing step of `end_session` (which debits
`duration * 0.5 kWh` at the role tariff through `descontar_saldo`, embedded
here as the whole `end_session` call). -/
inductive BalanceOp where
  | recharge (cantidad : ℚ)
  | debit (cantidad : ℚ)
  | endSession (c : Charger) (now : Nat)

/-- Applying one balance-touching operation to a user. -/
def applyBalanceOp (u : User) : BalanceOp → User
  | BalanceOp.recharge c => (u.recargar_saldo c).2
  | BalanceOp.debit c => (u.descontar_saldo c).2
  | BalanceOp.endSession c now => (u.end_session c now).1

/-- Every single balance-touching operation preserves non-negativity. -/
lemma applyBalanceOp_nonneg (u : User) (op : BalanceOp) (h : 0 ≤ u.saldo) :
    0 ≤ (applyBalanceOp u op).saldo := by
  cases op with
  | recharge c => exact recargar_saldo_nonneg u c h
  | debit c => exact descontar_saldo_nonneg u c h
  | endSession c now =>
    cases hs : u.active_session with
    | none => simpa [applyBalanceOp, User.end_session, hs] using h
    | some s =>
      simpa [applyBalanceOp, User.end_session, hs] using
        descontar_saldo_nonneg u
          (((s.end_ now).get_duration now : ℚ) * 0.5 * u.get_tarifa) h

/-!
Claim theorems.
-/

/-- Claim C1 (code bug, demonstrated on the failing input): in the registry
holding registered user Ana and station 1 with exactly one charger whose
status is the constructor default `"available"`, `start_charging` succeeds —
it returns a session, sets the user active_session and records the session
in the active-session index — yet the charger status stays `"available"`
(because `start_charge` only fires on the Spanish string `"disponible"`) and
`get_available_chargers` still returns the charger instead of the empty
list, contrary to the claim. -/
theorem start_charging_succeeds_but_charger_stays_available :
    (svcC1.start_charging 1 1 0).1 = some ⟨1, 101, 0, none⟩
    ∧ (alookup (svcC1.start_charging 1 1 0).2.users 1).map User.active_session
        = some (some ⟨1, 101, 0, none⟩)
    ∧ alookup (svcC1.start_charging 1 1 0).2.sessions 1 = some ⟨1, 101, 0, none⟩
    ∧ (svcC1.start_charging 1 1 0).2.get_charger 101
        = some ⟨101, "fast", "available"⟩
    ∧ station1.get_available_chargers (svcC1.start_charging 1 1 0).2.chargers
        = [⟨101, "fast", "available"⟩] := by
  decide

/-- Claim C2 (code bug, demonstrated on the failing input): Ana already
holds the open session started at time 0, yet `start_charging` does not
fail: it returns a fresh session started at time 7 and silently replaces
both her active_session and the active-session index entry, losing the
earlier session from the index. -/
theorem start_charging_silently_replaces_active_session :
    (alookup svcC2.users 1).map User.active_session
        = some (some ⟨1, 101, 0, none⟩)
    ∧ alookup svcC2.sessions 1 = some ⟨1, 101, 0, none⟩
    ∧ (svcC2.start_charging 1 1 7).1 = some ⟨1, 101, 7, none⟩
    ∧ (alookup (svcC2.start_charging 1 1 7).2.users 1).map User.active_session
        = some (some ⟨1, 101, 7, none⟩)
    ∧ alookup (svcC2.start_charging 1 1 7).2.sessions 1
        = some ⟨1, 101, 7, none⟩ := by
  decide

/-- Claim C3 (code bug, demonstrated on the failing input): `get_duration`
computes `(delta).seconds // 60`, which discards whole days. A session
closed exactly 86400 seconds after it started reports 0 minutes where the
claimed formula floor(elapsed / 60) gives 1440, and the duration of an open
session drops from 1439 back to 0 as the wall clock crosses the day
boundary, so it is not non-decreasing. -/
theorem get_duration_discards_whole_days :
    (Session.mk 1 101 0 (some 86400)).get_duration 0 = 0
    ∧ 86400 / 60 = 1440
    ∧ (Session.mk 1 101 0 none).get_duration 86399 = 1439
    ∧ (Session.mk 1 101 0 none).get_duration 86400 = 0 := by
  decide

/-- Claim C4: for a user with an active session, `end_session` bills
`duration * 0.5 kWh` at the role tariff (0.25 for empresa, 0.30 otherwise),
debits exactly when the balance suffices, and in every case — also on a
shortfall — appends the closed session to the history, applies
`stop_charge` to the charger and clears active_session. -/
theorem end_session_spec (u : User) (c : Charger) (now : Nat) (s : Session)
    (h : u.active_session = some s) :
    (u.end_session c now).1.saldo =
      (if ((s.end_ now).get_duration now : ℚ) * 0.5 * u.get_tarifa ≤ u.saldo
       then u.saldo - ((s.end_ now).get_duration now : ℚ) * 0.5 * u.get_tarifa
       else u.saldo)
    ∧ (u.end_session c now).1.sessions_history
        = u.sessions_history ++ [s.end_ now]
    ∧ (u.end_session c now).1.active_session = none
    ∧ (u.end_session c now).2 = c.stop_charge
    ∧ u.get_tarifa = (if u.user_type = "empresa" then 0.25 else 0.30) := by
  by_cases hc : ((s.end_ now).get_duration now : ℚ) * 0.5 * u.get_tarifa ≤ u.saldo <;>
    refine ⟨?_, ?_, ?_, ?_, rfl⟩ <;>
    simp [User.end_session, h, User.descontar_saldo, User.tiene_saldo_suficiente, hc]

/-- Witness for claim C4: ending the 600-second session of `userC4` on the
occupied charger. -/
theorem end_session_spec_witness :
    userC4.active_session = some ⟨1, 101, 0, none⟩
    ∧ ((userC4.end_session ⟨101, "fast", "ocupado"⟩ 600).1.saldo =
        (if (((Session.mk 1 101 0 none).end_ 600).get_duration 600 : ℚ)
              * 0.5 * userC4.get_tarifa ≤ userC4.saldo
         then userC4.saldo -
            (((Session.mk 1 101 0 none).end_ 600).get_duration 600 : ℚ)
              * 0.5 * userC4.get_tarifa
         else userC4.saldo)
      ∧ (userC4.end_session ⟨101, "fast", "ocupado"⟩ 600).1.sessions_history
          = userC4.sessions_history ++ [(Session.mk 1 101 0 none).end_ 600]
      ∧ (userC4.end_session ⟨101, "fast", "ocupado"⟩ 600).1.active_session = none
      ∧ (userC4.end_session ⟨101, "fast", "ocupado"⟩ 600).2
          = (Charger.mk 101 "fast" "ocupado").stop_charge
      ∧ userC4.get_tarifa
          = (if userC4.user_type = "empresa" then 0.25 else 0.30)) :=
  ⟨rfl, end_session_spec userC4 ⟨101, "fast", "ocupado"⟩ 600 ⟨1, 101, 0, none⟩ rfl⟩

/-- Claim C5: starting from a non-negative balance, no sequence of
balance-touching operations — recharges, debits, or the billing step run by
`end_session` — ever drives the balance below zero. -/
theorem balance_never_negative (ops : List BalanceOp) (u : User)
    (h : 0 ≤ u.saldo) : 0 ≤ (ops.foldl applyBalanceOp u).saldo := by
  induction ops generalizing u with
  | nil => simpa using h
  | cons op rest ih =>
    simp only [List.foldl_cons]
    exact ih (applyBalanceOp u op) (applyBalanceOp_nonneg u op h)

/-- Witness for claim C5: a concrete operation sequence on Ana, including a
debit larger than her balance and an `end_session` billing. -/
theorem balance_never_negative_witness :
    (0 : ℚ) ≤ anaUser.saldo
    ∧ 0 ≤ (([BalanceOp.recharge 10, BalanceOp.debit 200,
        BalanceOp.endSession ⟨101, "fast", "ocupado"⟩ 600,
        BalanceOp.recharge (-5), BalanceOp.debit 30].foldl
          applyBalanceOp anaUser).saldo) :=
  ⟨by decide, balance_never_negative _ anaUser (by decide)⟩

/-- Claim C6: on a charger whose status is available (either the English
constructor default or the Spanish string the transition guards test),
`start_charge` followed immediately by `stop_charge` restores the charger
exactly, and `stop_charge` alone is a no-op. -/
theorem charger_start_stop_roundtrip (c : Charger)
    (h : c.status = "available" ∨ c.status = "disponible") :
    c.start_charge.stop_charge = c ∧ c.stop_charge = c := by
  obtain ⟨id, ty, st⟩ := c
  rcases h with h | h <;> subst h <;> exact ⟨rfl, rfl⟩

/-- Witness for claim C6: both available encodings on concrete chargers. -/
theorem charger_start_stop_roundtrip_witness :
    ((Charger.mk 101 "fast" "available").start_charge.stop_charge
        = Charger.mk 101 "fast" "available"
      ∧ (Charger.mk 101 "fast" "available").stop_charge
        = Charger.mk 101 "fast" "available")
    ∧ ((Charger.mk 7 "normal" "disponible").start_charge.stop_charge
        = Charger.mk 7 "normal" "disponible"
      ∧ (Charger.mk 7 "normal" "disponible").stop_charge
        = Charger.mk 7 "normal" "disponible") :=
  ⟨charger_start_stop_roundtrip ⟨101, "fast", "available"⟩ (Or.inl rfl),
   charger_start_stop_roundtrip ⟨7, "normal", "disponible"⟩ (Or.inr rfl)⟩

/-- Claim C7: `register_user` signals a distinguishable domain error (an
`Except.error`, the embedding of the raised `ValueError`, distinct from the
`Option.none` sentinel the other operations use) exactly when some stored
user record already carries the email, and then leaves the registry
unchanged; on a fresh email it stores exactly one new user whose
password_hash is the hash of the given password. -/
theorem register_user_spec (svc : ChargingService) (hashFn : String → String)
    (newId : Nat) (name email password user_type : String) (saldo_inicial : ℚ) :
    ((∃ p ∈ svc.users, p.2.email = email) →
      svc.register_user hashFn newId name email password user_type saldo_inicial
        = (Except.error ("El email " ++ email ++ " ya esta registrado."), svc))
    ∧ ((∀ p ∈ svc.users, p.2.email ≠ email) → alookup svc.users newId = none →
      svc.register_user hashFn newId name email password user_type saldo_inicial
        = (Except.ok
            ⟨newId, name, email, hashFn password, user_type, none, saldo_inicial, []⟩,
           { svc with users := svc.users ++
              [(newId,
                ⟨newId, name, email, hashFn password, user_type, none,
                 saldo_inicial, []⟩)] })) := by
  constructor
  · intro hdup
    have hne : svc.get_user_by_email email ≠ none := by
      rw [Ne, get_user_by_email_eq_none_iff]
      push_neg
      obtain ⟨p, hp, he⟩ := hdup
      exact ⟨p, hp, he⟩
    rcases hm : svc.get_user_by_email email with _ | u0
    · exact absurd hm hne
    · simp [ChargingService.register_user, hm]
  · intro hfresh hid
    have hm : svc.get_user_by_email email = none :=
      (get_user_by_email_eq_none_iff svc email).mpr hfresh
    simp [ChargingService.register_user, hm, ainsert_of_fresh svc.users newId _ hid]

/-- Witness for claim C7: both branches on the concrete registry — the
duplicate email of Ana is rejected with the registry unchanged, and a fresh
email stores exactly one new user. -/
theorem register_user_spec_witness :
    (svcC1.register_user (fun s => s) 2 "Bob" "ana@volt.com" "pw" "individual" 50
      = (Except.error ("El email " ++ "ana@volt.com" ++ " ya esta registrado."),
         svcC1))
    ∧ (svcC1.register_user (fun s => s) 2 "Bob" "bob@volt.com" "pw" "individual" 50
      = (Except.ok
          ⟨2, "Bob", "bob@volt.com", (fun s => s) "pw", "individual", none, 50, []⟩,
         { svcC1 with users := svcC1.users ++
            [(2, ⟨2, "Bob", "bob@volt.com", (fun s => s) "pw", "individual", none,
              50, []⟩)] })) :=
  ⟨(register_user_spec svcC1 (fun s => s) 2 "Bob" "ana@volt.com" "pw"
      "individual" 50).1 ⟨(1, anaUser), by decide, rfl⟩,
   (register_user_spec svcC1 (fun s => s) 2 "Bob" "bob@volt.com" "pw"
      "individual" 50).2 (by decide) (by decide)⟩

/-- Claim C8 counterexample: deleting station 1 succeeds and removes the
station entry, yet its charger 101 is still retrievable through the global
charger index afterwards — the claim that the chargers of a deleted station
no longer persist in the registry is false on this input. -/
theorem delete_station_keeps_chargers_counterexample :
    (svcC1.delete_station 1).1 = true
    ∧ (svcC1.delete_station 1).2.stations = []
    ∧ (svcC1.delete_station 1).2.get_charger 101
        = some ⟨101, "fast", "available"⟩ := by
  decide

/-- Claim C8 as amended: `delete_station` removes only the station index
entry; the global charger index is untouched, so every charger of the
deleted station remains retrievable through `get_charger` exactly as
before. -/
theorem delete_station_preserves_charger_index (svc : ChargingService)
    (station_id charger_id : Int) :
    (svc.delete_station station_id).2.get_charger charger_id
        = svc.get_charger charger_id
    ∧ (svc.delete_station station_id).2.chargers = svc.chargers := by
  unfold ChargingService.delete_station
  split <;> simp [ChargingService.get_charger]

/-- Claim C9: `recargar_saldo` rejects every non-positive amount, leaving
the user (and in particular the balance) unchanged, and on a positive
amount signals success with the balance increased by exactly that amount. -/
theorem recargar_saldo_spec (u : User) (a : ℚ) :
    (a ≤ 0 → u.recargar_saldo a = (false, u))
    ∧ (0 < a → u.recargar_saldo a
        = (true, { u with saldo := u.saldo + a })) := by
  constructor
  · intro h
    simp [User.recargar_saldo, h]
  · intro h
    simp [User.recargar_saldo, not_le.mpr h]

/-- Witness for claim C9: both branches on Ana, with amounts -5 and 25. -/
theorem recargar_saldo_spec_witness :
    anaUser.recargar_saldo (-5) = (false, anaUser)
    ∧ anaUser.recargar_saldo 25
        = (true, { anaUser with saldo := anaUser.saldo + 25 }) :=
  ⟨(recargar_saldo_spec anaUser (-5)).1 (by norm_num),
   (recargar_saldo_spec anaUser 25).2 (by norm_num)⟩

/-- Claim C10: filtering the maintenance listing by station id 0 behaves
exactly like passing no filter, because `if station_id:` treats 0 as falsy —
every maintenance in the registry is returned, not only those assigned to
station 0. -/
theorem listar_mantenimientos_station_zero (svc : ChargingService) :
    svc.listar_mantenimientos (some 0) = svc.maintenances.map Prod.snd
    ∧ svc.listar_mantenimientos (some 0) = svc.listar_mantenimientos none := by
  simp [ChargingService.listar_mantenimientos, pyTruthy]
